import Mathlib

/-!
# Shallow embedding of `bodyScrollLock.js` (SportScheck/body-scroll-lock)

The module keeps process-wide mutable state (`firstTargetElement`,
`allTargetElements`, `initialClientY`, the three `previous*` style captures,
the `handlers` map) and mutates the document's body / root-element styles.
We embed that state as the structure `ScrollState` and each exported function
(`disableBodyScroll`, `enableBodyScroll`, `clearAllBodyScrollLocks`) as a
state transformer, keeping the source's names.

Modelling conventions:
* DOM elements are identified by `Nat` (the source compares them only with
  `===`, i.e. by identity).
* A possibly-absent (`null`/`undefined`) element argument is `Option Target`;
  the embedding equates JS `null` with `none` (so `firstTargetElement ===
  targetElement` with both null is `none = none`).
* The `setTimeout(fn)` deferrals in `setOverflowHidden` /
  `restoreOverflowSetting` only reorder the style mutations after the current
  synchronous call; we observe state after the scheduled tick has run, so the
  callback body is applied in place.
* `document.body.style.*` / `document.documentElement.style.overflow` are
  string fields of the state; `window.innerWidth` and
  `document.documentElement.clientWidth` are an environment record.
* The `handlers` Map and the pair of body-level `touchstart`/`touchmove`
  listeners are always installed/removed together keyed by the owning target,
  so both are tracked as the key list `handlers`.  The per-element
  `ontouchstart`/`ontouchmove` assignments are tracked as the list
  `elemTouchHandlers` of elements whose handlers are currently non-null.
* A JS `TypeError` (reading a property of `null`) is reported by the `threw`
  flag of `RunResult`, together with the state at the moment of the throw
  (partial mutations before the throw persist, as in JS).
-/

abbrev Target := Nat

/-- `window.innerWidth` and `document.documentElement.clientWidth`,
read when the deferred `setOverflowHidden` callback runs. -/
structure Env where
  innerWidth : Int
  clientWidth : Int
deriving DecidableEq, Repr

/-- `export interface BodyScrollOptions { reserveScrollBarGap?: boolean }` -/
structure BodyScrollOptions where
  reserveScrollBarGap : Option Bool
deriving DecidableEq, Repr

/-- The module's process-wide mutable state plus the document style fields it
mutates. -/
structure ScrollState where
  firstTargetElement : Option Target
  allTargetElements : List Target
  initialClientY : Int
  previousBodyOverflowSetting : Option String
  previousDocumentElementOverflowSetting : Option String
  previousBodyPaddingRight : Option String
  /-- keys of the `handlers` Map = targets owning the two body-level
  `touchstart`/`touchmove` listeners. -/
  handlers : List Target
  /-- elements whose `ontouchstart`/`ontouchmove` fields are currently set
  (non-null). -/
  elemTouchHandlers : List Target
  bodyOverflow : String
  docElemOverflow : String
  bodyPaddingRight : String
deriving DecidableEq, Repr

/-- `Map.set` on the tracked key list: a present key keeps its position,
an absent key is appended. -/
def mapSet (l : List Target) (t : Target) : List Target :=
  if l.contains t then l else l ++ [t]

/-- `Map.delete` / setting an element handler field back to null. -/
def mapDelete (l : List Target) (t : Target) : List Target :=
  l.filter (fun x => x ≠ t)

/-- The body of the `setTimeout` callback in `setOverflowHidden`. -/
def setOverflowHidden (env : Env) (options : Option BodyScrollOptions)
    (s : ScrollState) : ScrollState :=
  -- If previousBodyPaddingRight is already set, don't set it again.
  let s1 :=
    if s.previousBodyPaddingRight = none then
      let reserveScrollBarGap : Bool :=
        match options with
        | some o => o.reserveScrollBarGap == some true
        | none => false
      let scrollBarGap : Int := env.innerWidth - env.clientWidth
      if reserveScrollBarGap = true ∧ scrollBarGap > 0 then
        { s with previousBodyPaddingRight := some s.bodyPaddingRight,
                 bodyPaddingRight := toString scrollBarGap ++ "px" }
      else s
    else s
  -- If previousBodyOverflowSetting is already set, don't set it again.
  if s1.previousBodyOverflowSetting = none then
    { s1 with previousBodyOverflowSetting := some s1.bodyOverflow,
              previousDocumentElementOverflowSetting := some s1.docElemOverflow,
              bodyOverflow := "hidden",
              docElemOverflow := "hidden" }
  else s1

/-- The body of the `setTimeout` callback in `restoreOverflowSetting`. -/
def restoreOverflowSetting (s : ScrollState) : ScrollState :=
  let s1 :=
    match s.previousBodyPaddingRight with
    | some p =>
        { s with bodyPaddingRight := p, previousBodyPaddingRight := none }
    | none => s
  match s1.previousBodyOverflowSetting with
  | some ov =>
      { s1 with
        bodyOverflow := ov,
        -- assigning a JS `undefined` to a style property leaves it unchanged
        docElemOverflow :=
          s1.previousDocumentElementOverflowSetting.getD s1.docElemOverflow,
        previousBodyOverflowSetting := none,
        previousDocumentElementOverflowSetting := none }
  | none => s1

/-- Geometry of a scrollable element, read by the touch handlers. -/
structure ScrollElem where
  scrollTop : Int
  scrollHeight : Int
  clientHeight : Int
deriving DecidableEq, Repr

/-- One entry of `event.targetTouches`. -/
structure Touch where
  clientY : Int
deriving DecidableEq, Repr, Inhabited

/-- A `TouchEvent`, as far as the handlers read it. -/
structure TouchEvent where
  targetTouches : List Touch
deriving DecidableEq, Repr

/-- `isTargetElementTotallyScrolled`:
`targetElement ? targetElement.scrollHeight - targetElement.scrollTop <=
targetElement.clientHeight : false`. -/
def isTargetElementTotallyScrolled (targetElement : Option ScrollElem) : Bool :=
  match targetElement with
  | some el => el.scrollHeight - el.scrollTop ≤ el.clientHeight
  | none => false

/-- `handleScroll(event, targetElement)`.  The returned `Bool` is `false`
exactly when `preventDefault(event)` ran (the default browser action was
suppressed), `true` when the gesture is allowed to propagate.  The caller
guarantees `event.targetTouches` has exactly one entry; `headD` stands for
the source's `event.targetTouches[0]`. -/
def handleScroll (initialClientY : Int) (event : TouchEvent)
    (targetElement : Option ScrollElem) : Bool :=
  let clientY := (event.targetTouches.headD default).clientY - initialClientY
  if (match targetElement with
      | some el => decide (el.scrollTop = 0)
      | none => false) = true ∧ clientY > 0 then
    -- element is at the top of its scroll
    false
  else if isTargetElementTotallyScrolled targetElement = true ∧ clientY < 0 then
    -- element is at the bottom of its scroll
    false
  else
    true

/-- The closure assigned to `targetElement.ontouchmove` by `disableBodyScroll`:
only a single-touch event reaches `handleScroll`; otherwise the handler
returns `undefined` and the default action is not suppressed (`true`). -/
def ontouchmoveHandler (initialClientY : Int) (targetElement : ScrollElem)
    (event : TouchEvent) : Bool :=
  if event.targetTouches.length = 1 then
    handleScroll initialClientY event (some targetElement)
  else
    true

/-- `disableBodyScroll(targetElement, options)`.  `ios` is the module-level
`isIosDevice` flag.  Never throws. -/
def disableBodyScroll (ios : Bool) (env : Env) (targetElement : Option Target)
    (options : Option BodyScrollOptions) (s : ScrollState) : ScrollState :=
  let s1 :=
    if ios then
      match targetElement with
      | some t =>
          -- targetElement must be provided, and disableBodyScroll must not
          -- have been called on this targetElement before.
          if ¬ s.allTargetElements.contains t then
            { s with
              allTargetElements := s.allTargetElements ++ [t],
              handlers := mapSet s.handlers t,
              elemTouchHandlers := mapSet s.elemTouchHandlers t }
          else s
      | none => s
    else
      setOverflowHidden env options s
  if s1.firstTargetElement = none then
    { s1 with firstTargetElement := targetElement }
  else s1

/-- Result of an operation that may raise a JS `TypeError`: the state at
return (or at the moment of the throw) and whether it threw. -/
structure RunResult where
  state : ScrollState
  threw : Bool
deriving DecidableEq, Repr

/-- One iteration of the `allTargetElements.forEach` loop in
`enableBodyScroll`. -/
def enableEach (targetElement : Option Target) (acc : ScrollState)
    (target : Target) : ScrollState :=
  if targetElement = some target then
    { acc with
      handlers := mapDelete acc.handlers target,
      firstTargetElement :=
        if targetElement = acc.firstTargetElement then none
        else acc.firstTargetElement }
  else acc

/-- `enableBodyScroll(targetElement)`.  On the iOS path,
`targetElement.ontouchstart = null` throws a `TypeError` when `targetElement`
is absent; the mutations of the preceding `forEach` persist. -/
def enableBodyScroll (ios : Bool) (targetElement : Option Target)
    (s : ScrollState) : RunResult :=
  if ios then
    let s1 := s.allTargetElements.foldl (enableEach targetElement) s
    match targetElement with
    | none => ⟨s1, true⟩
    | some t =>
        ⟨{ s1 with
           elemTouchHandlers := mapDelete s1.elemTouchHandlers t,
           allTargetElements := s1.allTargetElements.filter (fun e => e ≠ t) },
         false⟩
  else if s.firstTargetElement = targetElement then
    ⟨{ restoreOverflowSetting s with firstTargetElement := none }, false⟩
  else
    ⟨s, false⟩

/-- `clearAllBodyScrollLocks()`.  The iOS branch removes every handler's body
listeners and clears the map, nulls the `ontouchstart`/`ontouchmove` fields
of every element of `allTargetElements` (emptying `allTargetElements` inside
the loop), and resets `initialClientY`; the standard branch restores the
overflow setting.  Both clear `firstTargetElement`. -/
def clearAllBodyScrollLocks (ios : Bool) (s : ScrollState) : ScrollState :=
  let s1 :=
    if ios then
      { s with
        handlers := [],
        elemTouchHandlers :=
          s.elemTouchHandlers.filter (fun t => ¬ s.allTargetElements.contains t),
        allTargetElements := [],
        -- Reset initial clientY
        initialClientY := -1 }
    else
      restoreOverflowSetting s
  { s1 with firstTargetElement := none }

/-- The closure assigned to `targetElement.ontouchstart`: fired events record
the single touch's vertical coordinate.  A handler fires only while it is
installed (the element is in `elemTouchHandlers`). -/
def fireTouchstart (t : Target) (event : TouchEvent) (s : ScrollState) :
    ScrollState :=
  if s.elemTouchHandlers.contains t ∧ event.targetTouches.length = 1 then
    { s with initialClientY := (event.targetTouches.headD default).clientY }
  else s

/-- The operations that mutate the module state. -/
inductive Op where
  | lock (targetElement : Option Target) (options : Option BodyScrollOptions)
  | unlock (targetElement : Option Target)
  | clearAll
  | touchstart (t : Target) (event : TouchEvent)
deriving Repr

/-- One operation applied to the state (a throwing `unlock` leaves the state
it had reached at the throw). -/
def step (ios : Bool) (env : Env) (s : ScrollState) : Op → ScrollState
  | .lock t o => disableBodyScroll ios env t o s
  | .unlock t => (enableBodyScroll ios t s).state
  | .clearAll => clearAllBodyScrollLocks ios s
  | .touchstart t ev => fireTouchstart t ev s

/-- A sequence of operations applied in order. -/
def run (ios : Bool) (env : Env) (s : ScrollState) : List Op → ScrollState
  | [] => s
  | op :: ops => run ios env (step ios env s op) ops

/-- The module state at load: empty registry, sentinel `initialClientY = -1`,
no captures; the document styles are whatever the host document had. -/
def initState (bodyOv docOv pad : String) : ScrollState :=
  { firstTargetElement := none
    allTargetElements := []
    initialClientY := -1
    previousBodyOverflowSetting := none
    previousDocumentElementOverflowSetting := none
    previousBodyPaddingRight := none
    handlers := []
    elemTouchHandlers := []
    bodyOverflow := bodyOv
    docElemOverflow := docOv
    bodyPaddingRight := pad }

/-- The alternatives of the platform-sniffing regular expression
`/iPad|iPhone|iPod|(iPad Simulator)|(iPhone Simulator)|(iPod Simulator)/`;
`test` succeeds iff some alternative occurs as a substring. -/
def iosPlatformAlternatives : List String :=
  ["iPad", "iPhone", "iPod", "iPad Simulator", "iPhone Simulator",
   "iPod Simulator"]

/-- Whether `pat` is a leading segment of `s`. -/
def charsStartWith : List Char → List Char → Bool
  | [], _ => true
  | _ :: _, [] => false
  | a :: as, b :: bs => a = b && charsStartWith as bs

/-- Whether `pat` occurs as a contiguous substring of `s`. -/
def charsContain (pat : List Char) : List Char → Bool
  | [] => charsStartWith pat []
  | b :: bs => charsStartWith pat (b :: bs) || charsContain pat bs

/-- `regex.test(p)` for the platform regular expression. -/
def iosRegexTest (p : String) : Bool :=
  iosPlatformAlternatives.any (fun pat => charsContain pat.toList p.toList)

/-- `const isIosDevice = typeof window !== 'undefined' && window.navigator &&
window.navigator.platform && regex.test(window.navigator.platform)`.
`navigatorPlatform = none` models a missing `window.navigator` or
`window.navigator.platform`; the empty string is falsy. -/
def isIosDevice (hasWindow : Bool) (navigatorPlatform : Option String) : Bool :=
  hasWindow &&
    (match navigatorPlatform with
     | none => false
     | some p => if p = "" then false else iosRegexTest p)

/-- The loaded module: `isIosDevice` is a `const` computed once at module
load from the then-current platform string. -/
structure ModuleState where
  ios : Bool
  scroll : ScrollState
deriving Repr

/-- Loading the module under a given host window/platform. -/
def loadModule (hasWindow : Bool) (navigatorPlatform : Option String)
    (s : ScrollState) : ModuleState :=
  ⟨isIosDevice hasWindow navigatorPlatform, s⟩

/-- Running one public operation on the loaded module.  `currentPlatform` is
the platform string the host reports at call time; the source consults only
the load-time `const isIosDevice`, never the call-time value. -/
def runOp (env : Env) (_currentPlatform : Option String) (m : ModuleState)
    (op : Op) : ModuleState :=
  ⟨m.ios, step m.ios env m.scroll op⟩

/-- The effect of one matching iteration of `enableBodyScroll`'s `forEach`
loop: the target's body listeners and `handlers` entry are removed and
`firstTargetElement` is cleared when it is that target. -/
def cleanTarget (t : Target) (s : ScrollState) : ScrollState :=
  { s with
    handlers := mapDelete s.handlers t,
    firstTargetElement :=
      if some t = s.firstTargetElement then none else s.firstTargetElement }

/-- Invariant of every state reachable from `initState`: installed element
handlers belong to registered targets, the document-element capture
accompanies the body capture, the standard platform never populates the
touch registry or moves `initialClientY`, and the touch platform never
populates the overflow captures. -/
def RegistryInv (ios : Bool) (s : ScrollState) : Prop :=
  (∀ t ∈ s.elemTouchHandlers, t ∈ s.allTargetElements) ∧
  (s.previousBodyOverflowSetting = none →
    s.previousDocumentElementOverflowSetting = none) ∧
  (ios = false → s.allTargetElements = [] ∧ s.elemTouchHandlers = [] ∧
    s.handlers = [] ∧ s.initialClientY = -1) ∧
  (ios = true → s.previousBodyOverflowSetting = none ∧
    s.previousDocumentElementOverflowSetting = none ∧
    s.previousBodyPaddingRight = none)

/-! ## Helper lemmas -/

theorem mapDelete_not_mem (l : List Target) (t : Target) (h : t ∉ l) :
    mapDelete l t = l := by
  rw [mapDelete, List.filter_eq_self]
  intro a ha
  simp only [ne_eq, decide_eq_true_eq]
  exact fun hc => h (hc ▸ ha)

theorem mapDelete_idem (l : List Target) (t : Target) :
    mapDelete (mapDelete l t) t = mapDelete l t := by
  simp [mapDelete, List.filter_filter]

theorem mem_mapSet (l : List Target) (t x : Target) (h : x ∈ mapSet l t) :
    x ∈ l ∨ x = t := by
  by_cases hm : t ∈ l <;> simp [mapSet, hm] at h <;> tauto

theorem mem_mapDelete (l : List Target) (t x : Target) :
    x ∈ mapDelete l t ↔ x ∈ l ∧ x ≠ t := by
  simp [mapDelete]

theorem filter_ne_self (l : List Target) (t : Target) (h : t ∉ l) :
    l.filter (fun e => e ≠ t) = l := by
  rw [List.filter_eq_self]
  intro a ha
  simp only [ne_eq, decide_eq_true_eq]
  exact fun hc => h (hc ▸ ha)

theorem setOverflowHidden_firstTargetElement (env : Env)
    (o : Option BodyScrollOptions) (s : ScrollState) :
    (setOverflowHidden env o s).firstTargetElement = s.firstTargetElement := by
  obtain ⟨f, all, icy, po, pd, pp, hs, eth, bo, deo, bp⟩ := s
  simp [setOverflowHidden] ; split_ifs <;> simp_all

theorem setOverflowHidden_firstTargetElement_update (env : Env)
    (o : Option BodyScrollOptions) (s : ScrollState) (x : Option Target) :
    setOverflowHidden env o { s with firstTargetElement := x } =
      { setOverflowHidden env o s with firstTargetElement := x } := by
  obtain ⟨f, all, icy, po, pd, pp, hs, eth, bo, deo, bp⟩ := s
  simp [setOverflowHidden] ; split_ifs <;> simp_all

theorem setOverflowHidden_idem (env : Env) (o : Option BodyScrollOptions)
    (s : ScrollState) :
    setOverflowHidden env o (setOverflowHidden env o s) =
      setOverflowHidden env o s := by
  obtain ⟨f, all, icy, po, pd, pp, hs, eth, bo, deo, bp⟩ := s
  cases po <;> cases pp <;> simp [setOverflowHidden] <;> split_ifs <;> simp_all

theorem setOverflowHidden_registry_fields (env : Env)
    (o : Option BodyScrollOptions) (s : ScrollState) :
    (setOverflowHidden env o s).allTargetElements = s.allTargetElements ∧
    (setOverflowHidden env o s).elemTouchHandlers = s.elemTouchHandlers ∧
    (setOverflowHidden env o s).handlers = s.handlers ∧
    (setOverflowHidden env o s).initialClientY = s.initialClientY := by
  obtain ⟨f, all, icy, po, pd, pp, hs, eth, bo, deo, bp⟩ := s
  simp [setOverflowHidden] ; split_ifs <;> simp_all

theorem setOverflowHidden_prev_isSome (env : Env) (o : Option BodyScrollOptions)
    (s : ScrollState) :
    (setOverflowHidden env o s).previousBodyOverflowSetting ≠ none := by
  obtain ⟨f, all, icy, po, pd, pp, hs, eth, bo, deo, bp⟩ := s
  simp [setOverflowHidden] ; split_ifs <;> simp_all

theorem setOverflowHidden_prev_some (env : Env) (o : Option BodyScrollOptions)
    (s : ScrollState) (ov : String)
    (h : s.previousBodyOverflowSetting = some ov) :
    (setOverflowHidden env o s).previousBodyOverflowSetting = some ov ∧
    (setOverflowHidden env o s).previousDocumentElementOverflowSetting =
      s.previousDocumentElementOverflowSetting := by
  obtain ⟨f, all, icy, po, pd, pp, hs, eth, bo, deo, bp⟩ := s
  simp_all [setOverflowHidden] ; split_ifs <;> simp_all

theorem setOverflowHidden_prevPad_some (env : Env)
    (o : Option BodyScrollOptions) (s : ScrollState) (pq : String)
    (h : s.previousBodyPaddingRight = some pq) :
    (setOverflowHidden env o s).previousBodyPaddingRight = some pq ∧
    (setOverflowHidden env o s).bodyPaddingRight = s.bodyPaddingRight := by
  obtain ⟨f, all, icy, po, pd, pp, hs, eth, bo, deo, bp⟩ := s
  simp_all [setOverflowHidden] ; split_ifs <;> simp_all

theorem setOverflowHidden_capture (env : Env) (o : Option BodyScrollOptions)
    (s : ScrollState) (h : s.previousBodyOverflowSetting = none) :
    (setOverflowHidden env o s).previousBodyOverflowSetting =
      some s.bodyOverflow ∧
    (setOverflowHidden env o s).previousDocumentElementOverflowSetting =
      some s.docElemOverflow ∧
    (setOverflowHidden env o s).bodyOverflow = "hidden" ∧
    (setOverflowHidden env o s).docElemOverflow = "hidden" := by
  obtain ⟨f, all, icy, po, pd, pp, hs, eth, bo, deo, bp⟩ := s
  simp_all [setOverflowHidden] ; split_ifs <;> simp_all

theorem setOverflowHidden_pad_skip (env : Env) (o : Option BodyScrollOptions)
    (s : ScrollState)
    (h : (match o with
          | some oo => oo.reserveScrollBarGap == some true
          | none => false) = false ∨ ¬ env.innerWidth - env.clientWidth > 0) :
    (setOverflowHidden env o s).bodyPaddingRight = s.bodyPaddingRight ∧
    (setOverflowHidden env o s).previousBodyPaddingRight =
      s.previousBodyPaddingRight := by
  obtain ⟨f, all, icy, po, pd, pp, hs, eth, bo, deo, bp⟩ := s
  rcases h with h | h <;> simp_all [setOverflowHidden] <;> split_ifs <;>
    simp_all <;> omega

theorem setOverflowHidden_pad_reserve (env : Env) (o : BodyScrollOptions)
    (s : ScrollState) (h1 : s.previousBodyPaddingRight = none)
    (h2 : o.reserveScrollBarGap = some true)
    (h3 : env.innerWidth - env.clientWidth > 0) :
    (setOverflowHidden env (some o) s).bodyPaddingRight =
      toString (env.innerWidth - env.clientWidth) ++ "px" ∧
    (setOverflowHidden env (some o) s).previousBodyPaddingRight =
      some s.bodyPaddingRight := by
  obtain ⟨f, all, icy, po, pd, pp, hs, eth, bo, deo, bp⟩ := s
  simp_all [setOverflowHidden] ; split_ifs <;> simp_all

theorem restoreOverflowSetting_registry_fields (s : ScrollState) :
    (restoreOverflowSetting s).allTargetElements = s.allTargetElements ∧
    (restoreOverflowSetting s).elemTouchHandlers = s.elemTouchHandlers ∧
    (restoreOverflowSetting s).handlers = s.handlers ∧
    (restoreOverflowSetting s).initialClientY = s.initialClientY ∧
    (restoreOverflowSetting s).firstTargetElement = s.firstTargetElement := by
  obtain ⟨f, all, icy, po, pd, pp, hs, eth, bo, deo, bp⟩ := s
  cases po <;> cases pp <;> simp [restoreOverflowSetting]

theorem restoreOverflowSetting_prev_none (s : ScrollState)
    (h : s.previousBodyOverflowSetting = none →
      s.previousDocumentElementOverflowSetting = none) :
    (restoreOverflowSetting s).previousBodyOverflowSetting = none ∧
    (restoreOverflowSetting s).previousDocumentElementOverflowSetting = none ∧
    (restoreOverflowSetting s).previousBodyPaddingRight = none := by
  obtain ⟨f, all, icy, po, pd, pp, hs, eth, bo, deo, bp⟩ := s
  cases po <;> cases pp <;> simp_all [restoreOverflowSetting]

theorem restoreOverflowSetting_bodyOverflow (s : ScrollState) (ov : String)
    (h : s.previousBodyOverflowSetting = some ov) :
    (restoreOverflowSetting s).bodyOverflow = ov := by
  obtain ⟨f, all, icy, po, pd, pp, hs, eth, bo, deo, bp⟩ := s
  cases pp <;> simp_all [restoreOverflowSetting]

theorem disableBodyScroll_std (env : Env) (t : Option Target)
    (o : Option BodyScrollOptions) (s : ScrollState) :
    disableBodyScroll false env t o s =
      if s.firstTargetElement = none then
        { setOverflowHidden env o s with firstTargetElement := t }
      else setOverflowHidden env o s := by
  simp [disableBodyScroll, setOverflowHidden_firstTargetElement]

theorem disableBodyScroll_ios_none (env : Env) (o : Option BodyScrollOptions)
    (s : ScrollState) :
    disableBodyScroll true env none o s = s := by
  obtain ⟨f, all, icy, po, pd, pp, hs, eth, bo, deo, bp⟩ := s
  cases f <;> simp [disableBodyScroll]

theorem disableBodyScroll_ios_mem (env : Env) (t : Target)
    (o : Option BodyScrollOptions) (s : ScrollState)
    (hm : t ∈ s.allTargetElements) :
    disableBodyScroll true env (some t) o s =
      if s.firstTargetElement = none then { s with firstTargetElement := some t }
      else s := by
  obtain ⟨f, all, icy, po, pd, pp, hs, eth, bo, deo, bp⟩ := s
  by_cases hf : f = none <;> simp_all [disableBodyScroll]

theorem disableBodyScroll_ios_not_mem (env : Env) (t : Target)
    (o : Option BodyScrollOptions) (s : ScrollState)
    (hm : t ∉ s.allTargetElements) :
    disableBodyScroll true env (some t) o s =
      { s with
        allTargetElements := s.allTargetElements ++ [t],
        handlers := mapSet s.handlers t,
        elemTouchHandlers := mapSet s.elemTouchHandlers t,
        firstTargetElement :=
          if s.firstTargetElement = none then some t
          else s.firstTargetElement } := by
  obtain ⟨f, all, icy, po, pd, pp, hs, eth, bo, deo, bp⟩ := s
  by_cases hf : f = none <;> simp_all [disableBodyScroll]

theorem disableBodyScroll_ios_prev (env : Env) (t : Option Target)
    (o : Option BodyScrollOptions) (s : ScrollState) :
    (disableBodyScroll true env t o s).previousBodyOverflowSetting =
      s.previousBodyOverflowSetting ∧
    (disableBodyScroll true env t o s).previousDocumentElementOverflowSetting =
      s.previousDocumentElementOverflowSetting ∧
    (disableBodyScroll true env t o s).previousBodyPaddingRight =
      s.previousBodyPaddingRight ∧
    (disableBodyScroll true env t o s).bodyPaddingRight = s.bodyPaddingRight := by
  cases t with
  | none => rw [disableBodyScroll_ios_none] ; exact ⟨rfl, rfl, rfl, rfl⟩
  | some v =>
      by_cases hm : v ∈ s.allTargetElements
      · rw [disableBodyScroll_ios_mem _ _ _ _ hm]
        split <;> exact ⟨rfl, rfl, rfl, rfl⟩
      · rw [disableBodyScroll_ios_not_mem _ _ _ _ hm]
        exact ⟨rfl, rfl, rfl, rfl⟩

theorem cleanTarget_idem (t : Target) (s : ScrollState) :
    cleanTarget t (cleanTarget t s) = cleanTarget t s := by
  by_cases h : some t = s.firstTargetElement <;>
    simp [cleanTarget, h, mapDelete_idem]

theorem foldl_enableEach_none (l : List Target) (s : ScrollState) :
    l.foldl (enableEach none) s = s := by
  induction l generalizing s <;> simp_all [enableEach]

theorem foldl_enableEach_char (t : Target) (l : List Target) (s : ScrollState) :
    l.foldl (enableEach (some t)) s = if t ∈ l then cleanTarget t s else s := by
  induction l generalizing s with
  | nil => simp
  | cons a l ih =>
      by_cases ha : a = t
      · subst ha
        have he : enableEach (some a) s a = cleanTarget a s := by
          simp [enableEach, cleanTarget]
        rw [List.foldl_cons, he, ih]
        by_cases hm : a ∈ l <;> simp [hm, cleanTarget_idem]
      · have he : enableEach (some t) s a = s := by
          simp [enableEach] ; intro hc ; exact absurd hc.symm ha
        rw [List.foldl_cons, he, ih]
        simp [ha, Ne.symm ha]

theorem enableBodyScroll_ios_char (t : Target) (s : ScrollState) :
    enableBodyScroll true (some t) s =
      ⟨{ (if t ∈ s.allTargetElements then cleanTarget t s else s) with
         elemTouchHandlers :=
           mapDelete
             (if t ∈ s.allTargetElements then cleanTarget t s
              else s).elemTouchHandlers t,
         allTargetElements :=
           (if t ∈ s.allTargetElements then cleanTarget t s
            else s).allTargetElements.filter (fun e => e ≠ t) }, false⟩ := by
  simp [enableBodyScroll, foldl_enableEach_char]

theorem enableBodyScroll_ios_not_mem (t : Target) (s : ScrollState)
    (h1 : t ∉ s.allTargetElements) (h2 : t ∉ s.elemTouchHandlers) :
    enableBodyScroll true (some t) s = ⟨s, false⟩ := by
  rw [enableBodyScroll_ios_char, if_neg h1, mapDelete_not_mem _ _ h2,
    filter_ne_self _ _ h1]

theorem enableBodyScroll_never_throws (ios : Bool) (t : Target)
    (s : ScrollState) :
    (enableBodyScroll ios (some t) s).threw = false := by
  cases ios with
  | true => rw [enableBodyScroll_ios_char]
  | false =>
      by_cases h : s.firstTargetElement = some t <;> simp [enableBodyScroll, h]

theorem enableBodyScroll_std_first (t : Target) (s : ScrollState)
    (h : s.firstTargetElement = some t) :
    (enableBodyScroll false (some t) s).state =
      { restoreOverflowSetting s with firstTargetElement := none } := by
  simp [enableBodyScroll, h]

theorem enableBodyScroll_std_noop (t : Target) (s : ScrollState)
    (h : s.firstTargetElement ≠ some t) :
    (enableBodyScroll false (some t) s).state = s := by
  simp [enableBodyScroll, h]

theorem disableBodyScroll_idem (ios : Bool) (env : Env) (t : Option Target)
    (o : Option BodyScrollOptions) (s : ScrollState) :
    disableBodyScroll ios env t o (disableBodyScroll ios env t o s) =
      disableBodyScroll ios env t o s := by
  cases ios with
  | true =>
      obtain ⟨f, all, icy, po, pd, pp, hs, eth, bo, deo, bp⟩ := s
      cases t with
      | none => cases f <;> simp [disableBodyScroll]
      | some v =>
          by_cases hm : v ∈ all <;> by_cases hf : f = none <;>
            simp [disableBodyScroll, hm, hf]
  | false =>
      by_cases hf : s.firstTargetElement = none
      · cases t with
        | none =>
            simp [disableBodyScroll_std, hf, setOverflowHidden_firstTargetElement,
              setOverflowHidden_firstTargetElement_update, setOverflowHidden_idem]
        | some v =>
            simp [disableBodyScroll_std, hf, setOverflowHidden_firstTargetElement,
              setOverflowHidden_firstTargetElement_update, setOverflowHidden_idem]
      · simp [disableBodyScroll_std, hf, setOverflowHidden_firstTargetElement,
          setOverflowHidden_idem]

theorem disableBodyScroll_nodup (ios : Bool) (env : Env) (t : Option Target)
    (o : Option BodyScrollOptions) (s : ScrollState)
    (h : s.allTargetElements.Nodup) :
    (disableBodyScroll ios env t o s).allTargetElements.Nodup := by
  cases ios with
  | true =>
      cases t with
      | none => rw [disableBodyScroll_ios_none] ; exact h
      | some v =>
          by_cases hm : v ∈ s.allTargetElements
          · rw [disableBodyScroll_ios_mem _ _ _ _ hm] ; split <;> exact h
          · rw [disableBodyScroll_ios_not_mem _ _ _ _ hm]
            show (s.allTargetElements ++ [v]).Nodup
            simp [List.nodup_append, h]
            exact hm
  | false =>
      rw [disableBodyScroll_std]
      obtain ⟨g1, _, _, _⟩ := setOverflowHidden_registry_fields env o s
      split <;> show (setOverflowHidden env o s).allTargetElements.Nodup <;>
        rw [g1] <;> exact h

theorem rinv_init (ios : Bool) (b d p : String) :
    RegistryInv ios (initState b d p) := by
  constructor
  · intro t ht ; simp [initState] at ht
  · refine ⟨fun _ => rfl, fun _ => ⟨rfl, rfl, rfl, rfl⟩, fun _ => ⟨rfl, rfl, rfl⟩⟩

theorem rinv_disable (ios : Bool) (env : Env) (t : Option Target)
    (o : Option BodyScrollOptions) (s : ScrollState) (hs : RegistryInv ios s) :
    RegistryInv ios (disableBodyScroll ios env t o s) := by
  obtain ⟨h1, h2, h3, h4⟩ := hs
  cases ios with
  | true =>
      cases t with
      | none => rw [disableBodyScroll_ios_none] ; exact ⟨h1, h2, h3, h4⟩
      | some v =>
          by_cases hm : v ∈ s.allTargetElements
          · rw [disableBodyScroll_ios_mem _ _ _ _ hm]
            split <;> exact ⟨h1, h2, by simp, fun _ => h4 rfl⟩
          · rw [disableBodyScroll_ios_not_mem _ _ _ _ hm]
            refine ⟨?_, h2, by simp, fun _ => h4 rfl⟩
            intro x hx
            rcases mem_mapSet _ _ _ hx with h | h
            · exact List.mem_append_left _ (h1 x h)
            · subst h ; exact List.mem_append_right _ (by simp)
  | false =>
      rw [disableBodyScroll_std]
      obtain ⟨g1, g2, g3, g4⟩ := setOverflowHidden_registry_fields env o s
      have g5 := setOverflowHidden_prev_isSome env o s
      split <;>
        exact ⟨by rw [g1, g2] ; exact h1, fun hc => absurd hc g5,
          fun _ => by rw [g1, g2, g3, g4] ; exact h3 rfl, by simp⟩

theorem rinv_enable (ios : Bool) (t : Option Target) (s : ScrollState)
    (hs : RegistryInv ios s) :
    RegistryInv ios (enableBodyScroll ios t s).state := by
  obtain ⟨h1, h2, h3, h4⟩ := hs
  cases ios with
  | true =>
      cases t with
      | none =>
          show RegistryInv true (s.allTargetElements.foldl (enableEach none) s)
          rw [foldl_enableEach_none]
          exact ⟨h1, h2, h3, h4⟩
      | some v =>
          rw [enableBodyScroll_ios_char]
          by_cases hm : v ∈ s.allTargetElements <;>
            simp only [if_pos, if_neg, hm, ite_true, ite_false] <;>
            refine ⟨?_, h2, by simp, fun _ => h4 rfl⟩ <;>
            intro x hx <;>
            rw [mem_mapDelete] at hx <;>
            rw [List.mem_filter]
          · exact ⟨h1 x hx.1, by simpa using hx.2⟩
          · exact ⟨h1 x hx.1, by simpa using hx.2⟩
  | false =>
      by_cases hf : s.firstTargetElement = t
      · have hst : (enableBodyScroll false t s).state =
            { restoreOverflowSetting s with firstTargetElement := none } := by
          simp [enableBodyScroll, hf]
        rw [hst]
        obtain ⟨g1, g2, g3, g4, _⟩ := restoreOverflowSetting_registry_fields s
        obtain ⟨r1, r2, r3⟩ := restoreOverflowSetting_prev_none s h2
        exact ⟨by rw [g1, g2] ; exact h1, fun _ => r2,
          fun _ => by rw [g1, g2, g3, g4] ; exact h3 rfl, by simp⟩
      · have hst : (enableBodyScroll false t s).state = s := by
          simp [enableBodyScroll, hf]
        rw [hst]
        exact ⟨h1, h2, h3, h4⟩

theorem rinv_clear (ios : Bool) (s : ScrollState) (hs : RegistryInv ios s) :
    RegistryInv ios (clearAllBodyScrollLocks ios s) := by
  obtain ⟨h1, h2, h3, h4⟩ := hs
  cases ios with
  | true =>
      refine ⟨?_, h2, by simp, fun _ => h4 rfl⟩
      intro x hx
      simp only [clearAllBodyScrollLocks, if_pos, ite_true,
        List.mem_filter] at hx
      exact absurd (by simpa using h1 x hx.1) (by simpa using hx.2)
  | false =>
      show RegistryInv false { restoreOverflowSetting s with
        firstTargetElement := none }
      obtain ⟨g1, g2, g3, g4, _⟩ := restoreOverflowSetting_registry_fields s
      obtain ⟨r1, r2, r3⟩ := restoreOverflowSetting_prev_none s h2
      exact ⟨by rw [g1, g2] ; exact h1, fun _ => r2,
        fun _ => by rw [g1, g2, g3, g4] ; exact h3 rfl, by simp⟩

theorem rinv_touchstart (ios : Bool) (t : Target) (ev : TouchEvent)
    (s : ScrollState) (hs : RegistryInv ios s) :
    RegistryInv ios (fireTouchstart t ev s) := by
  obtain ⟨h1, h2, h3, h4⟩ := hs
  unfold fireTouchstart
  split
  · rename_i hc
    cases ios with
    | true => exact ⟨h1, h2, by simp, fun _ => h4 rfl⟩
    | false =>
        exfalso
        have he := (h3 rfl).2.1
        rw [he] at hc
        simp at hc
  · exact ⟨h1, h2, h3, h4⟩

theorem rinv_step (ios : Bool) (env : Env) (s : ScrollState) (op : Op)
    (hs : RegistryInv ios s) : RegistryInv ios (step ios env s op) := by
  cases op with
  | lock t o => exact rinv_disable ios env t o s hs
  | unlock t => exact rinv_enable ios t s hs
  | clearAll => exact rinv_clear ios s hs
  | touchstart t ev => exact rinv_touchstart ios t ev s hs

theorem rinv_run (ios : Bool) (env : Env) (s : ScrollState) (ops : List Op)
    (hs : RegistryInv ios s) : RegistryInv ios (run ios env s ops) := by
  induction ops generalizing s with
  | nil => exact hs
  | cons op ops ih => exact ih _ (rinv_step ios env s op hs)

theorem clearAll_resets_of_inv (ios : Bool) (s : ScrollState)
    (hs : RegistryInv ios s) :
    (clearAllBodyScrollLocks ios s).allTargetElements = [] ∧
    (clearAllBodyScrollLocks ios s).handlers = [] ∧
    (clearAllBodyScrollLocks ios s).elemTouchHandlers = [] ∧
    (clearAllBodyScrollLocks ios s).firstTargetElement = none ∧
    (clearAllBodyScrollLocks ios s).initialClientY = -1 ∧
    (clearAllBodyScrollLocks ios s).previousBodyOverflowSetting = none ∧
    (clearAllBodyScrollLocks ios s).previousDocumentElementOverflowSetting =
      none ∧
    (clearAllBodyScrollLocks ios s).previousBodyPaddingRight = none ∧
    (∀ ov, s.previousBodyOverflowSetting = some ov →
      (clearAllBodyScrollLocks ios s).bodyOverflow = ov) := by
  obtain ⟨h1, h2, h3, h4⟩ := hs
  cases ios with
  | true =>
      obtain ⟨p1, p2, p3⟩ := h4 rfl
      refine ⟨rfl, rfl, ?_, rfl, rfl, p1, p2, p3, ?_⟩
      · show List.filter _ s.elemTouchHandlers = []
        rw [List.filter_eq_nil]
        intro a ha
        simp only [decide_not, Bool.not_eq_true', Bool.not_eq_false]
        simpa using h1 a ha
      · intro ov hov
        rw [p1] at hov
        exact absurd hov (by simp)
  | false =>
      obtain ⟨e1, e2, e3, e4⟩ := h3 rfl
      obtain ⟨g1, g2, g3, g4, _⟩ := restoreOverflowSetting_registry_fields s
      obtain ⟨r1, r2, r3⟩ := restoreOverflowSetting_prev_none s h2
      refine ⟨?_, ?_, ?_, rfl, ?_, r1, r2, r3, ?_⟩
      · show (restoreOverflowSetting s).allTargetElements = []
        rw [g1] ; exact e1
      · show (restoreOverflowSetting s).handlers = []
        rw [g3] ; exact e3
      · show (restoreOverflowSetting s).elemTouchHandlers = []
        rw [g2] ; exact e2
      · show (restoreOverflowSetting s).initialClientY = -1
        rw [g4] ; exact e4
      · intro ov hov
        exact restoreOverflowSetting_bodyOverflow s ov hov

/-! ## Claim theorems -/

/-- C1: On the standard platform, `enableBodyScroll` (unlockScroll) restores
the captured overflow styles and trailing padding and clears
`firstTargetElement` exactly when the unlocked target is the first target;
for every other target the state is left entirely unchanged.  In the
concrete scenario, after `lock(A)`, `lock(B)`, `unlock(B)` both root
overflow styles remain `"hidden"`, and a subsequent `unlock(A)` restores
the state exactly to its pre-lock value. -/
theorem unlockScroll_restores_iff_firstTarget (t : Target) (s : ScrollState)
    (ov od pq : String) :
    (s.firstTargetElement = some t →
      (enableBodyScroll false (some t) s).state =
        { restoreOverflowSetting s with firstTargetElement := none }) ∧
    (s.firstTargetElement ≠ some t →
      (enableBodyScroll false (some t) s).state = s) ∧
    (s.previousBodyOverflowSetting = some ov →
     s.previousDocumentElementOverflowSetting = some od →
     s.previousBodyPaddingRight = some pq →
      (restoreOverflowSetting s).bodyOverflow = ov ∧
      (restoreOverflowSetting s).docElemOverflow = od ∧
      (restoreOverflowSetting s).bodyPaddingRight = pq ∧
      (restoreOverflowSetting s).previousBodyOverflowSetting = none ∧
      (restoreOverflowSetting s).previousDocumentElementOverflowSetting =
        none ∧
      (restoreOverflowSetting s).previousBodyPaddingRight = none) ∧
    (run false ⟨1000, 1000⟩ (initState "auto" "visible" "")
        [Op.lock (some 0) none, Op.lock (some 1) none,
         Op.unlock (some 1)]).bodyOverflow = "hidden" ∧
    (run false ⟨1000, 1000⟩ (initState "auto" "visible" "")
        [Op.lock (some 0) none, Op.lock (some 1) none,
         Op.unlock (some 1)]).docElemOverflow = "hidden" ∧
    run false ⟨1000, 1000⟩ (initState "auto" "visible" "")
        [Op.lock (some 0) none, Op.lock (some 1) none, Op.unlock (some 1),
         Op.unlock (some 0)] = initState "auto" "visible" "" := by
  refine ⟨enableBodyScroll_std_first t s, enableBodyScroll_std_noop t s, ?_,
    by decide, by decide, by decide⟩
  intro h1 h2 h3
  obtain ⟨f, all, icy, po, pd, pp, hs, eth, bo, deo, bp⟩ := s
  simp_all [restoreOverflowSetting]

/-- Witness for C1 at a concrete locked state (first target 0, captures
`"auto"`/`"visible"`/`"0px"` held). -/
theorem unlockScroll_restores_iff_firstTarget_witness :
    (enableBodyScroll false (some 0)
        (run false ⟨1015, 1000⟩ (initState "auto" "visible" "0px")
          [Op.lock (some 0) (some ⟨some true⟩)])).state =
      { restoreOverflowSetting
          (run false ⟨1015, 1000⟩ (initState "auto" "visible" "0px")
            [Op.lock (some 0) (some ⟨some true⟩)]) with
        firstTargetElement := none } ∧
    (enableBodyScroll false (some 1)
        (run false ⟨1015, 1000⟩ (initState "auto" "visible" "0px")
          [Op.lock (some 0) (some ⟨some true⟩)])).state =
      run false ⟨1015, 1000⟩ (initState "auto" "visible" "0px")
        [Op.lock (some 0) (some ⟨some true⟩)] ∧
    (restoreOverflowSetting
        (run false ⟨1015, 1000⟩ (initState "auto" "visible" "0px")
          [Op.lock (some 0) (some ⟨some true⟩)])).bodyOverflow = "auto" :=
  ⟨(unlockScroll_restores_iff_firstTarget 0
      (run false ⟨1015, 1000⟩ (initState "auto" "visible" "0px")
        [Op.lock (some 0) (some ⟨some true⟩)]) "auto" "visible" "0px").1
      (by decide),
   (unlockScroll_restores_iff_firstTarget 1
      (run false ⟨1015, 1000⟩ (initState "auto" "visible" "0px")
        [Op.lock (some 0) (some ⟨some true⟩)]) "auto" "visible" "0px").2.1
      (by decide),
   ((unlockScroll_restores_iff_firstTarget 0
      (run false ⟨1015, 1000⟩ (initState "auto" "visible" "0px")
        [Op.lock (some 0) (some ⟨some true⟩)]) "auto" "visible" "0px").2.2.1
      (by decide) (by decide) (by decide)).1⟩

/-- C2: On the touch platform, for a `touchmove` event with exactly one
active touch point on a locked target, the default browser action is
suppressed (`= false`) exactly when the target sits at its scroll top and
the vertical delta since `initialClientY` (the gesture origin) is positive,
or when the scroll offset plus the visible height covers the full
scrollable height (`≤`, tolerating sub-pixel rounding) and the delta is
negative; in every other case the gesture is allowed to propagate. -/
theorem touchmove_suppression_iff (y0 : Int) (el : ScrollElem)
    (ev : TouchEvent) (h1 : ev.targetTouches.length = 1) :
    ontouchmoveHandler y0 el ev = false ↔
      ((el.scrollTop = 0 ∧
          (ev.targetTouches.headD default).clientY - y0 > 0) ∨
       (el.scrollTop + el.clientHeight ≥ el.scrollHeight ∧
          (ev.targetTouches.headD default).clientY - y0 < 0)) := by
  simp only [ontouchmoveHandler, h1, if_pos, handleScroll,
    isTargetElementTotallyScrolled]
  split_ifs <;> simp_all <;> omega

/-- Witness for C2: a single-touch downward gesture at the scroll top is
suppressed. -/
theorem touchmove_suppression_iff_witness :
    ontouchmoveHandler 0 ⟨0, 100, 50⟩ ⟨[⟨5⟩]⟩ = false :=
  (touchmove_suppression_iff 0 ⟨0, 100, 50⟩ ⟨[⟨5⟩]⟩ (by decide)).mpr
    (Or.inl (by decide))

/-- C3 counterexample: with an absent target the operations are not no-ops:
`disableBodyScroll` on the standard platform still hides the body overflow
(changing element state from `"auto"` to `"hidden"`), and
`enableBodyScroll` on the touch platform raises a `TypeError`. -/
theorem invalid_input_noop_cex :
    (disableBodyScroll false ⟨1000, 1000⟩ none none
        (initState "auto" "visible" "")).bodyOverflow = "hidden" ∧
    (initState "auto" "visible" "").bodyOverflow = "auto" ∧
    (enableBodyScroll true none (initState "auto" "visible" "")).threw =
      true := by
  decide

/-- C3 (amended): with a present target no operation raises
(`disableBodyScroll` and `clearAllBodyScrollLocks` are total by
construction, and `enableBodyScroll` never throws); an immediately repeated
lock changes nothing; unlocking a target that is not the standard-platform
first target, or is unregistered on the touch platform, leaves the state
entirely unchanged (which covers unlock-when-nothing-is-locked). -/
theorem operations_noop_on_invalid_present_targets (ios : Bool) (env : Env)
    (t : Target) (o : Option BodyScrollOptions) (s : ScrollState) :
    (enableBodyScroll ios (some t) s).threw = false ∧
    disableBodyScroll ios env (some t) o
        (disableBodyScroll ios env (some t) o s) =
      disableBodyScroll ios env (some t) o s ∧
    (s.firstTargetElement ≠ some t →
      (enableBodyScroll false (some t) s).state = s) ∧
    (t ∉ s.allTargetElements → t ∉ s.elemTouchHandlers →
      (enableBodyScroll true (some t) s).state = s) :=
  ⟨enableBodyScroll_never_throws ios t s,
   disableBodyScroll_idem ios env (some t) o s,
   enableBodyScroll_std_noop t s,
   fun h1 h2 => by rw [enableBodyScroll_ios_not_mem t s h1 h2]⟩

/-- Witness for C3 (amended) at the empty initial state: unlocking target 0
 when nothing is locked is a no-op on either platform and does not throw. -/
theorem operations_noop_on_invalid_present_targets_witness :
    (enableBodyScroll true (some 0) (initState "auto" "visible" "")).threw =
      false ∧
    (enableBodyScroll false (some 0) (initState "auto" "visible" "")).state =
      initState "auto" "visible" "" ∧
    (enableBodyScroll true (some 0) (initState "auto" "visible" "")).state =
      initState "auto" "visible" "" :=
  ⟨(operations_noop_on_invalid_present_targets true ⟨1000, 1000⟩ 0 none
      (initState "auto" "visible" "")).1,
   (operations_noop_on_invalid_present_targets false ⟨1000, 1000⟩ 0 none
      (initState "auto" "visible" "")).2.2.1 (by decide),
   (operations_noop_on_invalid_present_targets true ⟨1000, 1000⟩ 0 none
      (initState "auto" "visible" "")).2.2.2 (by decide) (by decide)⟩

/-- C4: from every state reachable by any operation sequence from the
initial state, a single `clearAllBodyScrollLocks` returns the registry to
the empty state: no registered targets, no `handlers` entries, no element
gesture callbacks, `firstTargetElement` cleared, `initialClientY` back at
the sentinel `-1`, every style capture cleared, and (standard path) the
captured body overflow restored. -/
theorem clearAllBodyScrollLocks_resets_registry (ios : Bool) (env : Env)
    (b d p : String) (ops : List Op) :
    (clearAllBodyScrollLocks ios
        (run ios env (initState b d p) ops)).allTargetElements = [] ∧
    (clearAllBodyScrollLocks ios
        (run ios env (initState b d p) ops)).handlers = [] ∧
    (clearAllBodyScrollLocks ios
        (run ios env (initState b d p) ops)).elemTouchHandlers = [] ∧
    (clearAllBodyScrollLocks ios
        (run ios env (initState b d p) ops)).firstTargetElement = none ∧
    (clearAllBodyScrollLocks ios
        (run ios env (initState b d p) ops)).initialClientY = -1 ∧
    (clearAllBodyScrollLocks ios
        (run ios env (initState b d p) ops)).previousBodyOverflowSetting =
      none ∧
    (clearAllBodyScrollLocks ios
        (run ios env (initState b d p)
          ops)).previousDocumentElementOverflowSetting = none ∧
    (clearAllBodyScrollLocks ios
        (run ios env (initState b d p) ops)).previousBodyPaddingRight =
      none ∧
    (∀ ov, (run ios env (initState b d p) ops).previousBodyOverflowSetting =
        some ov →
      (clearAllBodyScrollLocks ios
        (run ios env (initState b d p) ops)).bodyOverflow = ov) :=
  clearAll_resets_of_inv ios (run ios env (initState b d p) ops)
    (rinv_run ios env (initState b d p) ops (rinv_init ios b d p))

/-- Witness for C4: one standard-platform lock, then clear-all; the registry
is empty and the body overflow is restored to `"auto"`. -/
theorem clearAllBodyScrollLocks_resets_registry_witness :
    (clearAllBodyScrollLocks false (run false ⟨1000, 1000⟩
        (initState "auto" "visible" "")
        [Op.lock (some 0) none])).allTargetElements = [] ∧
    (clearAllBodyScrollLocks false (run false ⟨1000, 1000⟩
        (initState "auto" "visible" "")
        [Op.lock (some 0) none])).bodyOverflow = "auto" :=
  ⟨(clearAllBodyScrollLocks_resets_registry false ⟨1000, 1000⟩ "auto"
      "visible" "" [Op.lock (some 0) none]).1,
   (clearAllBodyScrollLocks_resets_registry false ⟨1000, 1000⟩ "auto"
      "visible" "" [Op.lock (some 0) none]).2.2.2.2.2.2.2.2 "auto"
     (by decide)⟩

/-- C5: `disableBodyScroll` (lockScroll) is idempotent on both platforms for
every target and options value: an immediately repeated identical call
produces the identical state, so the registry size after two identical lock
calls equals the size after one; and a lock call preserves distinctness of
`allTargetElements`, so a target appears at most once. -/
theorem lockScroll_idempotent (ios : Bool) (env : Env) (t : Option Target)
    (o : Option BodyScrollOptions) (s : ScrollState) :
    disableBodyScroll ios env t o (disableBodyScroll ios env t o s) =
      disableBodyScroll ios env t o s ∧
    (disableBodyScroll ios env t o
        (disableBodyScroll ios env t o s)).allTargetElements.length =
      (disableBodyScroll ios env t o s).allTargetElements.length ∧
    (s.allTargetElements.Nodup →
      (disableBodyScroll ios env t o s).allTargetElements.Nodup) :=
  ⟨disableBodyScroll_idem ios env t o s,
   by rw [disableBodyScroll_idem ios env t o s],
   disableBodyScroll_nodup ios env t o s⟩

/-- Witness for C5: locking target 0 on the empty touch-platform registry
keeps `allTargetElements` duplicate-free. -/
theorem lockScroll_idempotent_witness :
    (disableBodyScroll true ⟨1000, 1000⟩ (some 0) none
        (initState "auto" "visible" "")).allTargetElements.Nodup :=
  (lockScroll_idempotent true ⟨1000, 1000⟩ (some 0) none
      (initState "auto" "visible" "")).2.2 (by decide)

/-- C6: a held overflow capture is never overwritten by a subsequent lock
call on either platform (and the accompanying document-element capture is
untouched); a held padding capture is likewise preserved; on the standard
platform the capture is taken exactly when none is held, recording the
current styles. -/
theorem savedOverflow_capture_preserved (ios : Bool) (env : Env)
    (t : Option Target) (o : Option BodyScrollOptions) (s : ScrollState)
    (ov pq : String) :
    (s.previousBodyOverflowSetting = some ov →
      (disableBodyScroll ios env t o s).previousBodyOverflowSetting =
        some ov ∧
      (disableBodyScroll ios env t o s).previousDocumentElementOverflowSetting =
        s.previousDocumentElementOverflowSetting) ∧
    (s.previousBodyPaddingRight = some pq →
      (disableBodyScroll ios env t o s).previousBodyPaddingRight = some pq) ∧
    (ios = false → s.previousBodyOverflowSetting = none →
      (disableBodyScroll ios env t o s).previousBodyOverflowSetting =
        some s.bodyOverflow ∧
      (disableBodyScroll ios env t o s).previousDocumentElementOverflowSetting =
        some s.docElemOverflow) := by
  cases ios with
  | true =>
      obtain ⟨a1, a2, a3, a4⟩ := disableBodyScroll_ios_prev env t o s
      refine ⟨fun h => ⟨?_, ?_⟩, fun h => ?_, by simp⟩
      · rw [a1] ; exact h
      · exact a2
      · rw [a3] ; exact h
  | false =>
      rw [disableBodyScroll_std]
      refine ⟨fun h => ?_, fun h => ?_, fun _ hn => ?_⟩
      · split <;> exact setOverflowHidden_prev_some env o s ov h
      · split <;> exact (setOverflowHidden_prevPad_some env o s pq h).1
      · obtain ⟨k1, k2, _, _⟩ := setOverflowHidden_capture env o s hn
        split <;> exact ⟨k1, k2⟩

/-- Witness for C6: a second lock on an already-captured standard-platform
state keeps the original `"auto"`/`"0px"` captures; the first lock on the
empty state captures the current styles. -/
theorem savedOverflow_capture_preserved_witness :
    (disableBodyScroll false ⟨1015, 1000⟩ (some 1) none
        (run false ⟨1015, 1000⟩ (initState "auto" "visible" "0px")
          [Op.lock (some 0) (some ⟨some true⟩)])).previousBodyOverflowSetting =
      some "auto" ∧
    (disableBodyScroll false ⟨1015, 1000⟩ (some 1) none
        (run false ⟨1015, 1000⟩ (initState "auto" "visible" "0px")
          [Op.lock (some 0) (some ⟨some true⟩)])).previousBodyPaddingRight =
      some "0px" ∧
    (disableBodyScroll false ⟨1000, 1000⟩ (some 0) none
        (initState "auto" "visible" "")).previousBodyOverflowSetting =
      some "auto" :=
  ⟨((savedOverflow_capture_preserved false ⟨1015, 1000⟩ (some 1) none
      (run false ⟨1015, 1000⟩ (initState "auto" "visible" "0px")
        [Op.lock (some 0) (some ⟨some true⟩)]) "auto" "0px").1
      (by decide)).1,
   (savedOverflow_capture_preserved false ⟨1015, 1000⟩ (some 1) none
      (run false ⟨1015, 1000⟩ (initState "auto" "visible" "0px")
        [Op.lock (some 0) (some ⟨some true⟩)]) "auto" "0px").2.1
      (by decide),
   ((savedOverflow_capture_preserved false ⟨1000, 1000⟩ (some 0) none
      (initState "auto" "visible" "") "x" "y").2.2 rfl (by decide)).1⟩

/-- C7: on the standard platform, a lock call adds trailing padding equal to
the measured scrollbar gap exactly when `reserveScrollBarGap` is `true`,
the gap is positive, and no gap is currently reserved; with the option
false, omitted, a non-positive gap, or a capture already held, the padding
and its capture are unchanged.  In the concrete 15-unit-gap scenario the
padding becomes `"15px"` and the matching unlock restores `"0px"`. -/
theorem reserveScrollBarGap_padding (env : Env) (tg : Option Target)
    (o : BodyScrollOptions) (s : ScrollState) (pq : String) :
    (s.previousBodyPaddingRight = none → o.reserveScrollBarGap = some true →
     env.innerWidth - env.clientWidth > 0 →
      (disableBodyScroll false env tg (some o) s).bodyPaddingRight =
        toString (env.innerWidth - env.clientWidth) ++ "px" ∧
      (disableBodyScroll false env tg (some o) s).previousBodyPaddingRight =
        some s.bodyPaddingRight) ∧
    (o.reserveScrollBarGap ≠ some true →
      (disableBodyScroll false env tg (some o) s).bodyPaddingRight =
        s.bodyPaddingRight ∧
      (disableBodyScroll false env tg (some o) s).previousBodyPaddingRight =
        s.previousBodyPaddingRight) ∧
    ((disableBodyScroll false env tg none s).bodyPaddingRight =
        s.bodyPaddingRight ∧
     (disableBodyScroll false env tg none s).previousBodyPaddingRight =
        s.previousBodyPaddingRight) ∧
    (¬ env.innerWidth - env.clientWidth > 0 →
      (disableBodyScroll false env tg (some o) s).bodyPaddingRight =
        s.bodyPaddingRight ∧
      (disableBodyScroll false env tg (some o) s).previousBodyPaddingRight =
        s.previousBodyPaddingRight) ∧
    (s.previousBodyPaddingRight = some pq →
      (disableBodyScroll false env tg (some o) s).bodyPaddingRight =
        s.bodyPaddingRight ∧
      (disableBodyScroll false env tg (some o) s).previousBodyPaddingRight =
        some pq) ∧
    (run false ⟨1015, 1000⟩ (initState "auto" "visible" "0px")
        [Op.lock (some 0) (some ⟨some true⟩)]).bodyPaddingRight = "15px" ∧
    (run false ⟨1015, 1000⟩ (initState "auto" "visible" "0px")
        [Op.lock (some 0) (some ⟨some true⟩),
         Op.unlock (some 0)]).bodyPaddingRight = "0px" := by
  refine ⟨fun h1 h2 h3 => ?_, fun h => ?_, ?_, fun h => ?_, fun h => ?_,
    by decide, by decide⟩
  · rw [disableBodyScroll_std] ; split <;>
      exact setOverflowHidden_pad_reserve env o s h1 h2 h3
  · rw [disableBodyScroll_std] ; split <;>
      exact setOverflowHidden_pad_skip env (some o) s (Or.inl (by simpa using h))
  · rw [disableBodyScroll_std] ; split <;>
      exact setOverflowHidden_pad_skip env none s (Or.inl rfl)
  · rw [disableBodyScroll_std] ; split <;>
      exact setOverflowHidden_pad_skip env (some o) s (Or.inr h)
  · rw [disableBodyScroll_std] ; split <;>
      exact ⟨(setOverflowHidden_prevPad_some env (some o) s pq h).2,
        (setOverflowHidden_prevPad_some env (some o) s pq h).1⟩

/-- Witness for C7: target 0 locked with `reserveScrollBarGap: true` under a
15-unit gap pads the body by `"15px"`. -/
theorem reserveScrollBarGap_padding_witness :
    (disableBodyScroll false ⟨1015, 1000⟩ (some 0) (some ⟨some true⟩)
        (initState "auto" "visible" "0px")).bodyPaddingRight =
      toString ((1015 : Int) - 1000) ++ "px" :=
  ((reserveScrollBarGap_padding ⟨1015, 1000⟩ (some 0) ⟨some true⟩
      (initState "auto" "visible" "0px") "z").1 (by decide) (by decide)
      (by decide)).1

/-- C8 counterexample: the platform flag is a `const` computed once at
module load, not once per operation.  A module loaded under `"MacIntel"`
and then invoked while the host reports `"iPhone"` (for which the predicate
returns the touch platform) still runs the standard strategy: the lock call
hides the overflow and registers nothing. -/
theorem platform_selector_load_time_cex :
    isIosDevice true (some "iPhone") = true ∧
    isIosDevice true (some "MacIntel") = false ∧
    (runOp ⟨1000, 1000⟩ (some "iPhone")
        (loadModule true (some "MacIntel") (initState "auto" "visible" ""))
        (Op.lock (some 0) none)).scroll.bodyOverflow = "hidden" ∧
    (runOp ⟨1000, 1000⟩ (some "iPhone")
        (loadModule true (some "MacIntel") (initState "auto" "visible" ""))
        (Op.lock (some 0) none)).scroll.allTargetElements = [] := by
  decide

/-- C8 (amended): the platform selector is a pure predicate of the platform
string evaluated once at module load: absent platform information yields
the standard platform, a present string selects the touch platform exactly
when the fixed identifier set matches, and an operation's behaviour is
independent of the platform string reported at call time (every call uses
the load-time strategy). -/
theorem platform_selector_characterization :
    (∀ h : Bool, isIosDevice h none = false) ∧
    (∀ p : String, isIosDevice true (some p) = iosRegexTest p) ∧
    (∀ (env : Env) (p1 p2 : Option String) (m : ModuleState) (op : Op),
      runOp env p1 m op = runOp env p2 m op) := by
  refine ⟨fun h => by cases h <;> rfl, fun p => ?_,
    fun env p1 p2 m op => rfl⟩
  by_cases hp : p = ""
  · subst hp ; decide
  · simp [isIosDevice, hp]

/-- C9 counterexample: on the touch platform, after `lock(A)`, a recorded
single-touch at `y = 5`, and `unlock(A)`, the registry holds no targets yet
`initialClientY` is still `5`, not the `-1` sentinel: `enableBodyScroll`
does not reset the gesture origin. -/
theorem gestureOrigin_stale_after_unlock_cex :
    (run true ⟨1000, 1000⟩ (initState "auto" "visible" "")
       [Op.lock (some 0) none, Op.touchstart 0 ⟨[⟨5⟩]⟩,
        Op.unlock (some 0)]).allTargetElements = [] ∧
    (run true ⟨1000, 1000⟩ (initState "auto" "visible" "")
       [Op.lock (some 0) none, Op.touchstart 0 ⟨[⟨5⟩]⟩,
        Op.unlock (some 0)]).handlers = [] ∧
    (run true ⟨1000, 1000⟩ (initState "auto" "visible" "")
       [Op.lock (some 0) none, Op.touchstart 0 ⟨[⟨5⟩]⟩,
        Op.unlock (some 0)]).elemTouchHandlers = [] ∧
    (run true ⟨1000, 1000⟩ (initState "auto" "visible" "")
       [Op.lock (some 0) none, Op.touchstart 0 ⟨[⟨5⟩]⟩,
        Op.unlock (some 0)]).initialClientY = 5 := by
  decide

/-- C9 (amended): `clearAllBodyScrollLocks` resets `initialClientY` to the
`-1` sentinel on the touch platform, and on the standard platform every
reachable state carries the sentinel; but `enableBodyScroll` does not reset
it, so an empty registry reached through per-target unlocks may keep a
stale gesture origin. -/
theorem gestureOrigin_reset_amended :
    (∀ s : ScrollState,
      (clearAllBodyScrollLocks true s).initialClientY = -1) ∧
    (∀ (env : Env) (b d p : String) (ops : List Op),
      (run false env (initState b d p) ops).initialClientY = -1) := by
  constructor
  · intro s ; rfl
  · intro env b d p ops
    exact ((rinv_run false env (initState b d p) ops
      (rinv_init false b d p)).2.2.1 rfl).2.2.2

/-- C10: on the touch platform the options argument is completely ignored:
any two option values produce identical states, and the body padding and
overflow are never touched by a touch-platform lock. -/
theorem touch_lock_ignores_options (env : Env) (t : Option Target)
    (o1 o2 : Option BodyScrollOptions) (s : ScrollState) :
    disableBodyScroll true env t o1 s = disableBodyScroll true env t o2 s ∧
    (disableBodyScroll true env t o1 s).bodyPaddingRight =
      s.bodyPaddingRight ∧
    (disableBodyScroll true env t o1 s).bodyOverflow = s.bodyOverflow := by
  obtain ⟨f, all, icy, po, pd, pp, hs, eth, bo, deo, bp⟩ := s
  cases t with
  | none => cases f <;> simp [disableBodyScroll]
  | some v =>
      by_cases hm : v ∈ all <;> by_cases hf : f = none <;>
        simp [disableBodyScroll, hm, hf]
